import Mathlib

/-!
Verification of `torchtrain/metrics.py`: the GPU memory monitor and the
metric logger, shallowly embedded in Lean. The CUDA device runtime is an
external collaborator of the module; it is modelled as an explicit state
(a list of per-device counter records plus the ambient current-device
index), following the boundary contract of the specification: peak
active/reserved byte counters that a reset operation restarts at the
current values, and cumulative allocation-retry / OOM counters that no
peak reset touches. The time-series sink (TensorBoard SummaryWriter) is
modelled as a record of the scalar writes issued to it.
-/

namespace TorchTrain

/-- State of one CUDA device as seen through the device runtime:
device properties (name, total memory) together with the allocator
counters returned by memory_stats. -/
structure CudaDeviceState where
  name : String
  total_memory : ℕ
  active : ℕ
  reserved : ℕ
  active_peak : ℕ
  reserved_peak : ℕ
  num_alloc_retries : ℕ
  num_ooms : ℕ
  deriving DecidableEq, Inhabited, Repr

/-- Ambient CUDA runtime state: the devices and the current-device index. -/
structure CudaRuntime where
  devices : List CudaDeviceState
  current_device : ℕ
  deriving DecidableEq, Inhabited, Repr

/-- torch.cuda.reset_peak_memory_stats on one device: the peak counters
restart at the current values; the cumulative retry/OOM counters are
untouched. -/
def CudaDeviceState.resetPeak (d : CudaDeviceState) : CudaDeviceState :=
  { d with active_peak := d.active, reserved_peak := d.reserved }

/-- torch.cuda.empty_cache on one device: cached-but-unused reserved
memory is released, so reserved drops to the active footprint; peaks and
cumulative counters are untouched. -/
def CudaDeviceState.emptyCache (d : CudaDeviceState) : CudaDeviceState :=
  { d with reserved := d.active }

/-- Apply a device-runtime operation to the current device (the torch
calls in the source pass no device argument, so they act on the ambient
current device). -/
def CudaRuntime.modifyCurrent (rt : CudaRuntime) (f : CudaDeviceState → CudaDeviceState) :
    CudaRuntime :=
  { rt with
    devices := rt.devices.set rt.current_device
      (f (rt.devices.getD rt.current_device default)) }

/-- torch.cuda.reset_peak_memory_stats() with no device argument. -/
def CudaRuntime.reset_peak_memory_stats (rt : CudaRuntime) : CudaRuntime :=
  rt.modifyCurrent CudaDeviceState.resetPeak

/-- torch.cuda.empty_cache(). -/
def CudaRuntime.empty_cache (rt : CudaRuntime) : CudaRuntime :=
  rt.modifyCurrent CudaDeviceState.emptyCache

/-- Resolution of a torch.device identifier: "cuda:i" carries index
some i, bare "cuda" carries none and resolves to the current device. -/
def torchDeviceIndex (device : Option ℕ) (rt : CudaRuntime) : ℕ :=
  device.getD rt.current_device

/-- torch.cuda.memory_stats(device) (also get_device_name /
get_device_properties): the state record of the resolved device. -/
def CudaRuntime.memory_stats (rt : CudaRuntime) (device : Option ℕ) : CudaDeviceState :=
  rt.devices.getD (torchDeviceIndex device rt) default

/-- Named tuple GPUMemStats from the source. -/
structure GPUMemStats where
  max_active_gib : ℚ
  max_active_pct : ℚ
  max_reserved_gib : ℚ
  max_reserved_pct : ℚ
  num_alloc_retries : ℕ
  num_ooms : ℕ
  deriving DecidableEq, Repr

/-- The local _gib_in_bytes of GPUMemoryMonitor._to_gib. -/
def _gib_in_bytes : ℕ := 1024 * 1024 * 1024

/-- GPUMemoryMonitor._to_gib: bytes to gibibytes, exact division over ℚ. -/
def _to_gib (memory_in_bytes : ℕ) : ℚ :=
  (memory_in_bytes : ℚ) / (_gib_in_bytes : ℚ)

/-- The GPUMemoryMonitor object: the torch.device it was given, and the
cached name, index and capacity from __init__. -/
structure GPUMemoryMonitor where
  device : Option ℕ
  device_name : String
  device_index : ℕ
  device_capacity : ℕ
  device_capacity_gib : ℚ
  deriving DecidableEq, Repr

/-- GPUMemoryMonitor.__init__: caches name/index/capacity, then calls
reset_peak_memory_stats() and empty_cache() on the runtime. Note that
device_index is read from torch.cuda.current_device() while the name and
capacity are read from the given device. Returns the monitor and the
runtime state after the two resets. -/
def GPUMemoryMonitor.init (device : Option ℕ) (rt : CudaRuntime) :
    GPUMemoryMonitor × CudaRuntime :=
  let d := rt.memory_stats device
  (⟨device, d.name, rt.current_device, d.total_memory, _to_gib d.total_memory⟩,
    rt.reset_peak_memory_stats.empty_cache)

/-- GPUMemoryMonitor._to_pct: percent of the construction-time capacity. -/
def GPUMemoryMonitor._to_pct (self : GPUMemoryMonitor) (memory : ℕ) : ℚ :=
  100 * (memory : ℚ) / (self.device_capacity : ℚ)

/-- GPUMemoryMonitor.get_peak_stats: reads memory_stats of the bound
device, converts peaks to GiB and percent, and emits one warning line per
nonzero cumulative counter (retries first, then OOMs). Returns the stats
together with the warning lines emitted. -/
def GPUMemoryMonitor.get_peak_stats (self : GPUMemoryMonitor) (rt : CudaRuntime) :
    GPUMemStats × List String :=
  let cuda_info := rt.memory_stats self.device
  let warnings :=
    (if 0 < cuda_info.num_alloc_retries then
      [toString cuda_info.num_alloc_retries ++ " CUDA memory allocation retries."]
    else []) ++
    (if 0 < cuda_info.num_ooms then
      [toString cuda_info.num_ooms ++ " CUDA OOM errors thrown."]
    else [])
  (⟨_to_gib cuda_info.active_peak, self._to_pct cuda_info.active_peak,
    _to_gib cuda_info.reserved_peak, self._to_pct cuda_info.reserved_peak,
    cuda_info.num_alloc_retries, cuda_info.num_ooms⟩, warnings)

/-- GPUMemoryMonitor.reset_peak_stats: delegates to
torch.cuda.reset_peak_memory_stats() (no device argument). -/
def GPUMemoryMonitor.reset_peak_stats (_self : GPUMemoryMonitor) (rt : CudaRuntime) :
    CudaRuntime :=
  rt.reset_peak_memory_stats

end TorchTrain

namespace TorchTrain

/-- One model parameter, as much of torch.nn.Parameter as get_num_params
reads: element count and the requires_grad flag. A model is embedded as
the list produced by list(model.parameters()). -/
structure Parameter where
  numel : ℕ
  requires_grad : Bool
  deriving DecidableEq, Repr

/-- get_num_params from the source: optionally filter to trainable
parameters, then sum numel over the (possibly filtered) list. The
commented-out data_ptr deduplication is absent, matching the source. -/
def get_num_params (param_list0 : List Parameter) (only_trainable : Bool) : ℕ :=
  let param_list :=
    if only_trainable then param_list0.filter (fun p => p.requires_grad) else param_list0
  (param_list.map (fun p => p.numel)).sum

/-- The TensorBoard SummaryWriter as the sink sees it: its log
directory and queue bound from construction, whether close() has been
called on it, and the scalar records written to it via add_scalar. -/
structure SummaryWriter where
  log_dir : String
  max_queue : ℕ
  closed : Bool
  events : List (String × ℚ × ℤ)
  deriving DecidableEq, Repr

/-- SummaryWriter(log_dir, max_queue=1000): a fresh writer with no
events. -/
def SummaryWriter.init (log_dir : String) : SummaryWriter :=
  ⟨log_dir, 1000, false, []⟩

/-- SummaryWriter.add_scalar: records one (tag, value, step) write. -/
def SummaryWriter.add_scalar (w : SummaryWriter) (tag : String) (v : ℚ) (step : ℤ) :
    SummaryWriter :=
  { w with events := w.events ++ [(tag, v, step)] }

/-- SummaryWriter.close: marks the writer closed; closing an already
closed writer is a no-op (torch SummaryWriter.close returns immediately
when already closed). -/
def SummaryWriter.close (w : SummaryWriter) : SummaryWriter :=
  if w.closed then w else { w with closed := true }

/-- The MetricLogger object: optional namespace tag and the optional
writer (None when TensorBoard is disabled). -/
structure MetricLogger where
  tag : Option String
  writer : Option SummaryWriter
  deriving DecidableEq, Repr

/-- MetricLogger.__init__(log_dir, tag, enable_tb): the writer is opened
only when enable_tb is true; otherwise it stays None. -/
def MetricLogger.init (log_dir : String) (tag : Option String) (enable_tb : Bool) :
    MetricLogger :=
  ⟨tag, if enable_tb then some (SummaryWriter.init log_dir) else none⟩

/-- The qualified-name computation inside MetricLogger.log:
k when self.tag is None, otherwise tag ++ "/" ++ k. -/
def MetricLogger.qualName (tag : Option String) (k : String) : String :=
  match tag with
  | none => k
  | some t => t ++ "/" ++ k

/-- MetricLogger.log: when a writer is present, add_scalar once per
metrics entry in order, with the qualified name; otherwise a no-op.
The writer presence is the only guard: the closed flag is not checked. -/
def MetricLogger.log (self : MetricLogger) (metrics : List (String × ℚ)) (step : ℤ) :
    MetricLogger :=
  match self.writer with
  | none => self
  | some w =>
    { self with
      writer := some (metrics.foldl
        (fun w kv => w.add_scalar (MetricLogger.qualName self.tag kv.1) kv.2 step) w) }

/-- MetricLogger.close: closes the writer if present. The writer field
itself is left set (not cleared to None). -/
def MetricLogger.close (self : MetricLogger) : MetricLogger :=
  match self.writer with
  | none => self
  | some w => { self with writer := some w.close }

/-- All scalar records this logger has handed to its sink. -/
def MetricLogger.writes (self : MetricLogger) : List (String × ℚ × ℤ) :=
  match self.writer with
  | none => []
  | some w => w.events

/-- Fixture: a single-device runtime that has already seen allocator
distress (2 allocation retries, 3 OOMs) before the monitor exists. -/
def rtPre : CudaRuntime :=
  ⟨[⟨"NVIDIA A100", 17179869184, 0, 0, 0, 0, 2, 3⟩], 0⟩

/-- Fixture: a two-device runtime whose ambient current device is
device 0, used to construct a monitor on device 1. -/
def rtTwo : CudaRuntime :=
  ⟨[⟨"dev0", 100, 0, 0, 0, 0, 0, 0⟩, ⟨"dev1", 200, 0, 0, 0, 0, 0, 0⟩], 0⟩

/-- Fixture: a 16 GiB device whose active-bytes peak is 8589934592
(8 GiB) after workload activity. -/
def rt16 : CudaRuntime :=
  ⟨[⟨"dev16", 17179869184, 0, 0, 8589934592, 0, 0, 0⟩], 0⟩

/-- Fixture: the monitor constructed on the 16 GiB device. -/
def m16 : GPUMemoryMonitor := (GPUMemoryMonitor.init none rt16).1

/-- Fixture: a device with current usage below its peaks and nonzero
cumulative counters, for exercising reset_peak_stats. -/
def rtC6 : CudaRuntime :=
  ⟨[⟨"devR", 2048, 10, 20, 30, 40, 5, 6⟩], 0⟩

/-- Fixture: a monitor bound to the device of rtC6. -/
def mC6 : GPUMemoryMonitor := (GPUMemoryMonitor.init (some 0) rtC6).1

section Lemmas

/-- getD after set: the updated slot reads back the new value when the
index is in range, every other slot is unchanged. -/
theorem getD_set_eq_ite {α : Type} (l : List α) (i j : ℕ) (a d : α) :
    (l.set i a).getD j d = if i = j ∧ j < l.length then a else l.getD j d := by
  induction l generalizing i j with
  | nil => simp [List.getD]
  | cons x xs ih =>
    cases i with
    | zero =>
      cases j with
      | zero => simp [List.getD]
      | succ j' => simp [List.getD, List.set]
    | succ i' =>
      cases j with
      | zero => simp [List.getD, List.set]
      | succ j' =>
        simp only [List.set, List.getD_cons_succ, List.length_cons, ih]
        have hiff : (i' + 1 = j' + 1 ∧ j' + 1 < xs.length + 1) ↔
            (i' = j' ∧ j' < xs.length) := by omega
        simp only [hiff]

/-- Reading the runtime after an operation on the current device: the
read record is the operated-on record exactly when the read resolves to
the current device and that index is in range. -/
theorem memory_stats_modifyCurrent (rt : CudaRuntime) (f : CudaDeviceState → CudaDeviceState)
    (device : Option ℕ) :
    (rt.modifyCurrent f).memory_stats device =
      if rt.current_device = torchDeviceIndex device rt ∧
          torchDeviceIndex device rt < rt.devices.length then
        f (rt.memory_stats device)
      else rt.memory_stats device := by
  have key : (rt.modifyCurrent f).memory_stats device =
      (rt.devices.set rt.current_device
        (f (rt.devices.getD rt.current_device default))).getD
        (torchDeviceIndex device rt) default := rfl
  rw [key, getD_set_eq_ite]
  by_cases h : rt.current_device = torchDeviceIndex device rt ∧
      torchDeviceIndex device rt < rt.devices.length
  · rw [if_pos h, if_pos h]
    show f (rt.devices.getD rt.current_device default) =
      f (rt.devices.getD (torchDeviceIndex device rt) default)
    rw [h.1]
  · rw [if_neg h, if_neg h]
    rfl

/-- resetPeak leaves the cumulative counters alone. -/
theorem resetPeak_counters (d : CudaDeviceState) :
    (d.resetPeak).num_alloc_retries = d.num_alloc_retries ∧
      (d.resetPeak).num_ooms = d.num_ooms := ⟨rfl, rfl⟩

/-- emptyCache leaves the cumulative counters alone. -/
theorem emptyCache_counters (d : CudaDeviceState) :
    (d.emptyCache).num_alloc_retries = d.num_alloc_retries ∧
      (d.emptyCache).num_ooms = d.num_ooms := ⟨rfl, rfl⟩

/-- A current-device operation that preserves the cumulative counters
preserves them in every subsequent read, whatever device is read. -/
theorem counters_modifyCurrent (rt : CudaRuntime) (f : CudaDeviceState → CudaDeviceState)
    (device : Option ℕ)
    (hr : ∀ d, (f d).num_alloc_retries = d.num_alloc_retries)
    (ho : ∀ d, (f d).num_ooms = d.num_ooms) :
    ((rt.modifyCurrent f).memory_stats device).num_alloc_retries =
        (rt.memory_stats device).num_alloc_retries ∧
      ((rt.modifyCurrent f).memory_stats device).num_ooms =
        (rt.memory_stats device).num_ooms := by
  rw [memory_stats_modifyCurrent]
  split
  · exact ⟨hr _, ho _⟩
  · exact ⟨rfl, rfl⟩

/-- _to_gib is monotone in the byte count. -/
theorem _to_gib_mono {a b : ℕ} (h : a ≤ b) : _to_gib a ≤ _to_gib b := by
  unfold _to_gib
  have hc : (0 : ℚ) < (_gib_in_bytes : ℚ) := by norm_num [_gib_in_bytes]
  exact (div_le_div_iff_of_pos_right hc).mpr (by exact_mod_cast h)

/-- _to_pct is monotone in the byte count (also when the cached capacity
is zero, where both sides are zero). -/
theorem _to_pct_mono (m : GPUMemoryMonitor) {a b : ℕ} (h : a ≤ b) :
    m._to_pct a ≤ m._to_pct b := by
  unfold GPUMemoryMonitor._to_pct
  rcases Nat.eq_zero_or_pos m.device_capacity with hc | hc
  · simp [hc]
  · have hc' : (0 : ℚ) < (m.device_capacity : ℚ) := by exact_mod_cast hc
    refine (div_le_div_iff_of_pos_right hc').mpr ?_
    have hab : (a : ℚ) ≤ (b : ℚ) := by exact_mod_cast h
    nlinarith

/-- Folding add_scalar over a metrics list appends exactly one record
per entry, in order. -/
theorem foldl_add_scalar (w : SummaryWriter) (tag : Option String)
    (metrics : List (String × ℚ)) (step : ℤ) :
    (metrics.foldl
        (fun w kv => w.add_scalar (MetricLogger.qualName tag kv.1) kv.2 step) w).events =
      w.events ++ metrics.map (fun kv => (MetricLogger.qualName tag kv.1, kv.2, step)) := by
  induction metrics generalizing w with
  | nil => simp
  | cons kv rest ih =>
    rw [List.foldl_cons, ih]
    simp [SummaryWriter.add_scalar, List.append_assoc]

/-- Summing a mapped value over a filtered list never exceeds the sum
over the whole list. -/
theorem sum_map_filter_le (l : List Parameter) (q : Parameter → Bool)
    (f : Parameter → ℕ) :
    ((l.filter q).map f).sum ≤ (l.map f).sum := by
  induction l with
  | nil => simp
  | cons p rest ih =>
    by_cases hq : q p
    · simp [List.filter_cons, hq]
      omega
    · simp [List.filter_cons, hq]
      omega

/-- Logging through a present writer appends exactly one record per
metrics entry, in iteration order, after any events already written. -/
theorem MetricLogger.log_writes_some (tg : Option String) (w : SummaryWriter)
    (metrics : List (String × ℚ)) (step : ℤ) :
    ((⟨tg, some w⟩ : MetricLogger).log metrics step).writes =
      w.events ++ metrics.map (fun kv => (MetricLogger.qualName tg kv.1, kv.2, step)) := by
  show (metrics.foldl
      (fun w kv => w.add_scalar (MetricLogger.qualName tg kv.1) kv.2 step) w).events = _
  exact foldl_add_scalar w tg metrics step

end Lemmas

/-- C1: an enabled MetricLogger forwards exactly one record to the sink
per metrics entry; the qualified name is tag/k when a namespace tag is
set and k unchanged when it is absent; in particular, logging loss =
1.23 at step 5 under tag "train" produces the single write
("train/loss", 1.23, 5). -/
theorem log_writes_one_record_per_entry (log_dir : String) (tag : Option String)
    (metrics : List (String × ℚ)) (step : ℤ) (t k : String) :
    ((MetricLogger.init log_dir tag true).log metrics step).writes =
        metrics.map (fun kv => (MetricLogger.qualName tag kv.1, kv.2, step)) ∧
      MetricLogger.qualName (some t) k = t ++ "/" ++ k ∧
      MetricLogger.qualName none k = k ∧
      ((MetricLogger.init log_dir (some "train") true).log
          [("loss", (123 : ℚ) / 100)] 5).writes =
        [("train/loss", (123 : ℚ) / 100, 5)] := by
  refine ⟨?_, rfl, rfl, ?_⟩
  · exact (MetricLogger.log_writes_some tag (SummaryWriter.init log_dir) metrics step).trans
      (List.nil_append _)
  · exact (MetricLogger.log_writes_some (some "train") (SummaryWriter.init log_dir)
      [("loss", (123 : ℚ) / 100)] 5).trans (List.nil_append _)

/-- C3 counterexample: after close(), log() still forwards the record
to the sink, because close() leaves the writer field set; the write list
grows, refuting the post-close no-op claim. -/
theorem log_after_close_still_writes_cex :
    ((MetricLogger.init "d" (some "train") true).close.log
        [("loss", (123 : ℚ) / 100)] 5).writes ≠
      ((MetricLogger.init "d" (some "train") true).close).writes := by decide

/-- C3 amended: after close(), log() raises no error but still forwards
one record per metrics entry to the sink (close() marks the writer
closed without clearing it), and calling close() a second time is not
an error (it is idempotent). -/
theorem log_after_close_behavior (log_dir : String) (tag : Option String)
    (metrics : List (String × ℚ)) (step : ℤ) (m : MetricLogger) :
    ((MetricLogger.init log_dir tag true).close.log metrics step).writes =
        metrics.map (fun kv => (MetricLogger.qualName tag kv.1, kv.2, step)) ∧
      m.close.close = m.close := by
  constructor
  · exact (MetricLogger.log_writes_some tag ((SummaryWriter.init log_dir).close)
      metrics step).trans (List.nil_append _)
  · rcases m with ⟨tg, w⟩
    cases w with
    | none => rfl
    | some sw =>
      rcases sw with ⟨ld, mq, c, ev⟩
      cases c <;> simp [MetricLogger.close, SummaryWriter.close]

/-- C4: the GiB conversion divides by the binary gibibyte 1024^3 =
1073741824, never by 1000^3; in particular one full gibibyte converts
to exactly 1. -/
theorem gib_binary_divisor (b : ℕ) :
    _to_gib b = (b : ℚ) / 1073741824 ∧
      _to_gib 1073741824 = 1 ∧
      _gib_in_bytes = 1024 ^ 3 ∧
      (1024 : ℕ) ^ 3 ≠ 1000 ^ 3 := by
  refine ⟨by norm_num [_to_gib, _gib_in_bytes], by norm_num [_to_gib, _gib_in_bytes],
    by decide, by decide⟩

/-- C8: a MetricLogger constructed with enable_tb = false leaves the
writer unset (no sink resource is opened), and every log() call is a
complete no-op. -/
theorem disabled_logger_noop (log_dir : String) (tag : Option String)
    (metrics : List (String × ℚ)) (step : ℤ) :
    (MetricLogger.init log_dir tag false).writer = none ∧
      (MetricLogger.init log_dir tag false).log metrics step =
        MetricLogger.init log_dir tag false :=
  ⟨rfl, rfl⟩

/-- C10: get_num_params with only_trainable = false sums numel over
every entry of the parameter list (no deduplication), with
only_trainable = true sums over the requires_grad entries only, and the
trainable count never exceeds the total count. -/
theorem get_num_params_spec (params : List Parameter) :
    get_num_params params false = (params.map (fun p => p.numel)).sum ∧
      get_num_params params true =
        ((params.filter (fun p => p.requires_grad)).map (fun p => p.numel)).sum ∧
      get_num_params params true ≤ get_num_params params false := by
  refine ⟨rfl, rfl, ?_⟩
  show ((params.filter (fun p => p.requires_grad)).map (fun p => p.numel)).sum ≤
    (params.map (fun p => p.numel)).sum
  exact sum_map_filter_le params _ _

/-- C2 counterexample: on a device that already has 2 allocation
retries and 3 OOMs before the monitor is constructed, the snapshot
taken immediately after construction still reports those counts, not
zero: construction resets only the peak stats and empties the cache. -/
theorem fresh_counters_cex :
    ¬ (((GPUMemoryMonitor.init none rtPre).1.get_peak_stats
          (GPUMemoryMonitor.init none rtPre).2).1.num_alloc_retries = 0 ∧
        ((GPUMemoryMonitor.init none rtPre).1.get_peak_stats
          (GPUMemoryMonitor.init none rtPre).2).1.num_ooms = 0) := by decide

/-- C2 amended: a snapshot taken immediately after construction reports
num_alloc_retries and num_ooms equal to the device's cumulative
pre-construction values: __init__ calls only reset_peak_memory_stats and
empty_cache, and neither touches the cumulative counters. -/
theorem init_preserves_cumulative_counters (device : Option ℕ) (rt : CudaRuntime) :
    ((GPUMemoryMonitor.init device rt).1.get_peak_stats
        (GPUMemoryMonitor.init device rt).2).1.num_alloc_retries =
        (rt.memory_stats device).num_alloc_retries ∧
      ((GPUMemoryMonitor.init device rt).1.get_peak_stats
        (GPUMemoryMonitor.init device rt).2).1.num_ooms =
        (rt.memory_stats device).num_ooms := by
  have h1 := counters_modifyCurrent (rt.modifyCurrent CudaDeviceState.resetPeak)
    CudaDeviceState.emptyCache device (fun _ => rfl) (fun _ => rfl)
  have h2 := counters_modifyCurrent rt CudaDeviceState.resetPeak device
    (fun _ => rfl) (fun _ => rfl)
  constructor
  · show (((rt.modifyCurrent CudaDeviceState.resetPeak).modifyCurrent
        CudaDeviceState.emptyCache).memory_stats device).num_alloc_retries = _
    rw [h1.1, h2.1]
  · show (((rt.modifyCurrent CudaDeviceState.resetPeak).modifyCurrent
        CudaDeviceState.emptyCache).memory_stats device).num_ooms = _
    rw [h1.2, h2.2]

/-- C9 counterexample: constructing the monitor on device "cuda:1"
while the ambient current device is 0 caches device_index = 0, not the
index 1 of the device whose name and capacity were cached. -/
theorem device_index_mismatch_cex :
    (GPUMemoryMonitor.init (some 1) rtTwo).1.device_name = "dev1" ∧
      (GPUMemoryMonitor.init (some 1) rtTwo).1.device_index ≠ 1 := by decide

/-- C9 amended: construction caches the name and total capacity of the
device named by the identifier, but device_index is read from
torch.cuda.current_device(), so it equals the ambient current-device
index, which coincides with the identified device's index only when that
device is current. -/
theorem init_caches_current_device_index (device : Option ℕ) (rt : CudaRuntime) :
    (GPUMemoryMonitor.init device rt).1.device_index = rt.current_device ∧
      (GPUMemoryMonitor.init device rt).1.device_name = (rt.memory_stats device).name ∧
      (GPUMemoryMonitor.init device rt).1.device_capacity =
        (rt.memory_stats device).total_memory :=
  ⟨rfl, rfl, rfl⟩

/-- C7: get_peak_stats emits a warning iff a cumulative counter is
nonzero, exactly one warning line per nonzero counter, and the returned
snapshot is the pure function of the device state regardless of whether
the warning branches fire (and the function is total: no error path). -/
theorem get_peak_stats_warnings_and_value (m : GPUMemoryMonitor) (rt : CudaRuntime) :
    ((m.get_peak_stats rt).2 = [] ↔
        (rt.memory_stats m.device).num_alloc_retries = 0 ∧
          (rt.memory_stats m.device).num_ooms = 0) ∧
      (m.get_peak_stats rt).2.length =
        ((if 0 < (rt.memory_stats m.device).num_alloc_retries then 1 else 0) +
          (if 0 < (rt.memory_stats m.device).num_ooms then 1 else 0)) ∧
      (m.get_peak_stats rt).1 =
        ⟨_to_gib (rt.memory_stats m.device).active_peak,
          m._to_pct (rt.memory_stats m.device).active_peak,
          _to_gib (rt.memory_stats m.device).reserved_peak,
          m._to_pct (rt.memory_stats m.device).reserved_peak,
          (rt.memory_stats m.device).num_alloc_retries,
          (rt.memory_stats m.device).num_ooms⟩ := by
  refine ⟨?_, ?_, rfl⟩ <;>
    by_cases hr : 0 < (rt.memory_stats m.device).num_alloc_retries <;>
      by_cases ho : 0 < (rt.memory_stats m.device).num_ooms <;>
        simp [GPUMemoryMonitor.get_peak_stats, hr, ho] <;> omega

/-- C5: the percentage conversion computes 100 * b / capacity against
the construction-time capacity: a full capacity reads 100, zero bytes
read 0, and on a 16 GiB device an 8589934592-byte active peak snapshots
as exactly 8 GiB and 50 percent. -/
theorem pct_conversion (m : GPUMemoryMonitor) (h : 0 < m.device_capacity) :
    (∀ b : ℕ, m._to_pct b = 100 * (b : ℚ) / (m.device_capacity : ℚ)) ∧
      m._to_pct m.device_capacity = 100 ∧
      m._to_pct 0 = 0 ∧
      (m16.get_peak_stats rt16).1.max_active_gib = 8 ∧
      (m16.get_peak_stats rt16).1.max_active_pct = 50 := by
  refine ⟨fun b => rfl, ?_, ?_, ?_, ?_⟩
  · have hc : (m.device_capacity : ℚ) ≠ 0 :=
      Nat.cast_ne_zero.mpr (Nat.pos_iff_ne_zero.mp h)
    unfold GPUMemoryMonitor._to_pct
    rw [mul_div_assoc, div_self hc, mul_one]
  · unfold GPUMemoryMonitor._to_pct
    simp
  · show _to_gib 8589934592 = 8
    norm_num [_to_gib, _gib_in_bytes]
  · show m16._to_pct 8589934592 = 50
    show (100 : ℚ) * (8589934592 : ℕ) / ((17179869184 : ℕ) : ℚ) = 50
    norm_num

/-- C5 witness: the 16 GiB monitor has positive capacity and its full
capacity converts to 100 percent. -/
theorem pct_conversion_witness :
    0 < m16.device_capacity ∧ m16._to_pct m16.device_capacity = 100 :=
  ⟨by decide, (pct_conversion m16 (by decide)).2.1⟩

/-- C6: under the allocator invariant that current usage is bounded by
the tracked peaks, reset_peak_stats followed by a snapshot reports
active/reserved peaks (in GiB and percent) no greater than the snapshot
before the reset, while num_alloc_retries and num_ooms are unchanged. -/
theorem reset_peak_windows_only (m : GPUMemoryMonitor) (rt : CudaRuntime)
    (h1 : (rt.memory_stats m.device).active ≤ (rt.memory_stats m.device).active_peak)
    (h2 : (rt.memory_stats m.device).reserved ≤ (rt.memory_stats m.device).reserved_peak) :
    (m.get_peak_stats (m.reset_peak_stats rt)).1.num_alloc_retries =
        (m.get_peak_stats rt).1.num_alloc_retries ∧
      (m.get_peak_stats (m.reset_peak_stats rt)).1.num_ooms =
        (m.get_peak_stats rt).1.num_ooms ∧
      (m.get_peak_stats (m.reset_peak_stats rt)).1.max_active_gib ≤
        (m.get_peak_stats rt).1.max_active_gib ∧
      (m.get_peak_stats (m.reset_peak_stats rt)).1.max_active_pct ≤
        (m.get_peak_stats rt).1.max_active_pct ∧
      (m.get_peak_stats (m.reset_peak_stats rt)).1.max_reserved_gib ≤
        (m.get_peak_stats rt).1.max_reserved_gib ∧
      (m.get_peak_stats (m.reset_peak_stats rt)).1.max_reserved_pct ≤
        (m.get_peak_stats rt).1.max_reserved_pct := by
  have hms := memory_stats_modifyCurrent rt CudaDeviceState.resetPeak m.device
  refine ⟨?_, ?_, ?_, ?_, ?_, ?_⟩
  · show ((rt.modifyCurrent CudaDeviceState.resetPeak).memory_stats
        m.device).num_alloc_retries = (rt.memory_stats m.device).num_alloc_retries
    rw [hms]
    split <;> rfl
  · show ((rt.modifyCurrent CudaDeviceState.resetPeak).memory_stats
        m.device).num_ooms = (rt.memory_stats m.device).num_ooms
    rw [hms]
    split <;> rfl
  · show _to_gib ((rt.modifyCurrent CudaDeviceState.resetPeak).memory_stats
        m.device).active_peak ≤ _to_gib (rt.memory_stats m.device).active_peak
    rw [hms]
    split
    · exact _to_gib_mono h1
    · exact le_refl _
  · show m._to_pct ((rt.modifyCurrent CudaDeviceState.resetPeak).memory_stats
        m.device).active_peak ≤ m._to_pct (rt.memory_stats m.device).active_peak
    rw [hms]
    split
    · exact _to_pct_mono m h1
    · exact le_refl _
  · show _to_gib ((rt.modifyCurrent CudaDeviceState.resetPeak).memory_stats
        m.device).reserved_peak ≤ _to_gib (rt.memory_stats m.device).reserved_peak
    rw [hms]
    split
    · exact _to_gib_mono h2
    · exact le_refl _
  · show m._to_pct ((rt.modifyCurrent CudaDeviceState.resetPeak).memory_stats
        m.device).reserved_peak ≤ m._to_pct (rt.memory_stats m.device).reserved_peak
    rw [hms]
    split
    · exact _to_pct_mono m h2
    · exact le_refl _

/-- C6 witness: on the concrete device of rtC6 the invariant holds and
the cumulative retry counter survives a peak reset. -/
theorem reset_peak_windows_only_witness :
    (rtC6.memory_stats mC6.device).active ≤ (rtC6.memory_stats mC6.device).active_peak ∧
      (rtC6.memory_stats mC6.device).reserved ≤
        (rtC6.memory_stats mC6.device).reserved_peak ∧
      (mC6.get_peak_stats (mC6.reset_peak_stats rtC6)).1.num_alloc_retries =
        (mC6.get_peak_stats rtC6).1.num_alloc_retries :=
  ⟨by decide, by decide, (reset_peak_windows_only mC6 rtC6 (by decide) (by decide)).1⟩

end TorchTrain
